import Mathlib

/-!
Shallow embedding of the positioning core of `react-stickup`:
the shared offset coordinator (`StickyProvider.tsx`), and the `Sticky`
component's pure geometry functions (`isNearToViewport`, `isSticky`,
`isDockedToBottom`, `getOverflowScrollType`, `calcHeightDifference`,
`calcOverflowScrollFlowStickyStyles`, `calcPositionStyles`,
`getStickyStyles`, `shouldUseNativeSticky`).

JS numbers are modelled as `ℚ`; `Math.round x` is `round x = ⌊x + 1/2⌋`,
which agrees with JS `Math.round` on all rationals.  Optional (unmeasured)
rectangles are `Option Rect`; the JS idiom `rect?.f || 0` becomes a `getD 0`
projection.  Environment constants that live outside the repository
(`supportsPositionSticky`, `supportsWillChange`, `process.env.NODE_ENV`,
the DOM parent-of-placeholder comparison) are passed as explicit booleans.
-/

namespace Stickup

/-- Embeds `IRect` from react-viewport-utils: the fields the code reads. -/
structure Rect where
  top : ℚ
  bottom : ℚ
  height : ℚ
deriving Repr, DecidableEq

/-- Embeds `IScroll`: the fields the code reads. -/
structure Scroll where
  y : ℚ
  yTurn : ℚ
  yDTurn : ℚ
  isScrollingUp : Bool
  isScrollingDown : Bool
deriving Repr, DecidableEq

/-- Embeds `IDimensions`: the field the code reads. -/
structure Dimensions where
  height : ℚ
deriving Repr, DecidableEq

/-- The shared group offset `{top, height}` owned by the provider. -/
structure StickyOffset where
  top : ℚ
  height : ℚ
deriving Repr, DecidableEq

/-- Values of the `overflowScroll` property. -/
inductive OverflowScrollType where
  | flow
  | end_
deriving Repr, DecidableEq

/-- CSS `position` values the component emits. -/
inductive Position where
  | fixed
  | absolute
deriving Repr, DecidableEq

/-- Embeds `IPositionStyles`: `position`/`top` always set by `calcPositionStyles`;
`willChange`/`transform` optionally added by `getStickyStyles`. -/
structure PositionStyles where
  position : Position
  top : ℚ
  willChange : Option String := none
  transform : Option String := none
deriving Repr, DecidableEq

/-- The props of the `Sticky` component that the modelled functions read.
`hasContainer` is `Boolean(this.props.container)`. -/
structure Props where
  hasContainer : Bool
  stickyOffset : StickyOffset
  defaultOffsetTop : ℚ
  overflowScroll : OverflowScrollType
  disableHardwareAcceleration : Bool
  experimentalNative : Bool
deriving Repr, DecidableEq

/-- JS `rect?.top || 0`. -/
def optTop (r : Option Rect) : ℚ := (r.map Rect.top).getD 0

/-- JS `rect?.bottom || 0`. -/
def optBottom (r : Option Rect) : ℚ := (r.map Rect.bottom).getD 0

/-- JS `rect?.height || 0`. -/
def optHeight (r : Option Rect) : ℚ := (r.map Rect.height).getD 0

/-- Embeds `StickyScrollUpProvider.updateStickyOffset` (StickyProvider.tsx:39-42):
`top := Math.min(stickyOffset, height); height := height` as a functional
update of the provider's mutable `stickyOffset` cell. -/
def updateStickyOffset (_offset : StickyOffset) (stickyOffset height : ℚ) :
    StickyOffset :=
  { top := min stickyOffset height, height := height }

/-- Embeds `get offsetTop()`: `stickyOffset.top + defaultOffsetTop`. -/
def offsetTop (p : Props) : ℚ := p.stickyOffset.top + p.defaultOffsetTop

/-- Embeds `isNearToViewport` with `padding = 700`:
`(rect?.top || 0) - padding < 0 && (rect?.bottom || 0) + padding > 0`. -/
def isNearToViewport (rect : Option Rect) : Bool :=
  decide (optTop rect - 700 < 0) && decide (optBottom rect + 700 > 0)

/-- Embeds `calcHeightDifference`: `Math.max(0, Math.round(rectSticky?.height || 0)
- dimensions.height)`, with the `!dimensions` guard returning `0`. -/
def calcHeightDifference (rectSticky : Option Rect)
    (dimensions : Option Dimensions) : ℚ :=
  match dimensions with
  | none => 0
  | some d => max 0 ((round (optHeight rectSticky) : ℚ) - d.height)

/-- Embeds `getOverflowScrollType`: `'flow'` when the `overflowScroll` prop is
`'flow'` and `calcHeightDifference > 0`, else `'end'`. -/
def getOverflowScrollType (p : Props) (rectSticky : Option Rect)
    (dimensions : Dimensions) : OverflowScrollType :=
  if p.overflowScroll = .flow ∧
      calcHeightDifference rectSticky (some dimensions) > 0 then
    .flow
  else
    .end_

/-- Embeds `isSticky` (lines 392-410). -/
def isSticky (p : Props) (rect containerRect : Option Rect)
    (dimensions : Dimensions) : Bool :=
  if ¬p.hasContainer then
    decide ((round (optTop containerRect) : ℚ) ≤ offsetTop p)
  else if (round (optTop containerRect) : ℚ) > offsetTop p then
    false
  else if (round (optBottom containerRect) : ℚ) - offsetTop p <
      (if p.overflowScroll = .flow then min (optHeight rect) dimensions.height
       else optHeight rect) then
    false
  else
    true

/-- Embeds `isDockedToBottom` (lines 436-464); the `!rect || !containerRect`
guard is the `Option` match. -/
def isDockedToBottom (p : Props) (rect containerRect : Option Rect)
    (dimensions : Dimensions) : Bool :=
  match rect, containerRect with
  | some rect, some containerRect =>
    if ¬p.hasContainer then
      false
    else if rect.height > containerRect.height then
      false
    else if (round containerRect.bottom : ℚ) - offsetTop p ≥
        (if p.overflowScroll = .flow then min rect.height dimensions.height
         else rect.height) then
      false
    else
      true
  | _, _ => false

/-- The `top` expression of the scroll-tracking branch of
`calcOverflowScrollFlowStickyStyles` (line 536):
`Math.abs(scrollY - stickyTop + (containerTop - scrollY))`. -/
def flowTrackingTop (scrollY stickyTop containerTop : ℚ) : ℚ :=
  |scrollY - stickyTop + (containerTop - scrollY)|

/-- Embeds `calcOverflowScrollFlowStickyStyles` (lines 473-544). -/
def calcOverflowScrollFlowStickyStyles (p : Props) (rectSticky : Option Rect)
    (containerRect : Rect) (scroll : Scroll) (dimensions : Dimensions) :
    PositionStyles :=
  let containerTop : ℚ := round containerRect.top
  let stickyTop : ℚ := round (optTop rectSticky)
  let scrollY : ℚ := round scroll.y
  let scrollYTurn : ℚ := round scroll.yTurn
  let heightDiff := calcHeightDifference rectSticky (some dimensions)
  let containerTopOffset := containerTop + scrollY - p.stickyOffset.height
  let isStickyBottomReached : Bool :=
    decide ((round (optBottom rectSticky) : ℚ) ≤ dimensions.height)
  let isContainerTopReached : Bool := decide (containerTop < offsetTop p)
  let isTurnWithinHeightOffset : Bool :=
    decide (scrollYTurn - heightDiff ≤ containerTopOffset)
  let isTurnPointBeforeContainer : Bool := decide (scrollYTurn < containerTopOffset)
  let isTurnPointAfterContainer : Bool :=
    decide (scrollYTurn > containerTopOffset + containerRect.height)
  let isTurnPointWithinContainer : Bool :=
    !(isTurnPointBeforeContainer || isTurnPointAfterContainer)
  if (scroll.isScrollingDown && !isStickyBottomReached &&
        !isTurnPointWithinContainer) ||
      (scroll.isScrollingUp && !isContainerTopReached) ||
      (scroll.isScrollingUp && isTurnWithinHeightOffset &&
        !isTurnPointWithinContainer) then
    { position := .absolute, top := 0 }
  else if scroll.isScrollingDown && isStickyBottomReached then
    { position := .fixed, top := -heightDiff }
  else
    let isStickyTopReached : Bool := decide (stickyTop ≥ offsetTop p)
    if (scroll.isScrollingDown && isTurnPointWithinContainer) ||
        (scroll.isScrollingUp && !isTurnPointBeforeContainer &&
          !isStickyTopReached) then
      { position := .absolute, top := flowTrackingTop scrollY stickyTop containerTop }
    else
      { position := .fixed, top := offsetTop p }

/-- Embeds `calcPositionStyles` (lines 546-595). -/
def calcPositionStyles (p : Props) (rectSticky : Option Rect)
    (containerRect : Rect) (scroll : Scroll) (dimensions : Dimensions) :
    PositionStyles :=
  if isSticky p rectSticky (some containerRect) dimensions then
    if getOverflowScrollType p rectSticky dimensions = .flow then
      calcOverflowScrollFlowStickyStyles p rectSticky containerRect scroll
        dimensions
    else
      -- headIsFlexible = stickyOffset > 0 && stickyOffset < stickyHeight
      if p.stickyOffset.top > 0 ∧ p.stickyOffset.top < p.stickyOffset.height then
        let relYTurn : ℚ :=
          (round (scroll.yTurn - scroll.y + scroll.yDTurn) : ℚ) -
            (round containerRect.top : ℚ)
        { position := .absolute, top := relYTurn + offsetTop p }
      else
        { position := .fixed, top := offsetTop p }
  else if isDockedToBottom p rectSticky (some containerRect) dimensions then
    { position := .absolute, top := containerRect.height - optHeight rectSticky }
  else
    { position := .absolute, top := 0 }

/-- Embeds `getStickyStyles` (lines 597-624).  `supportsWillChange` is the
environment constant from `utils`. -/
def getStickyStyles (supportsWillChange : Bool) (p : Props)
    (rect : Option Rect) (containerRect : Rect) (scroll : Scroll)
    (dimensions : Dimensions) : PositionStyles :=
  let styles := calcPositionStyles p rect containerRect scroll dimensions
  if !p.disableHardwareAcceleration then
    let shouldAccelerate := isNearToViewport rect
    if supportsWillChange then
      { styles with
        willChange := if shouldAccelerate then some "position, top" else none }
    else
      { styles with
        transform := if shouldAccelerate then some "translateZ(0)" else none }
  else
    styles

/-- Environment of `shouldUseNativeSticky` that lives outside the modelled
code: `supportsPositionSticky` from `utils`, whether
`process.env.NODE_ENV !== 'production'`, and whether the placeholder's
`parentElement` is the declared container (`true` = the structural
precondition holds, so no warning). -/
structure NativeStickyEnv where
  supportsPositionSticky : Bool
  devMode : Bool
  placeholderParentIsContainer : Bool
deriving Repr, DecidableEq

/-- Embeds `shouldUseNativeSticky` (lines 412-434) as a state transition on the
instance flag `nativeStickyThrewOnce`; result is
`(returned value, warning emitted this call, new flag)`. -/
def shouldUseNativeSticky (env : NativeStickyEnv) (p : Props)
    (appliedOverflowScroll : OverflowScrollType)
    (nativeStickyThrewOnce : Bool) : Bool × Bool × Bool :=
  if ¬p.experimentalNative ∨ ¬env.supportsPositionSticky ∨
      appliedOverflowScroll ≠ .end_ ∨ p.stickyOffset.top ≠ 0 then
    (false, false, nativeStickyThrewOnce)
  else if env.devMode ∧ ¬nativeStickyThrewOnce ∧
      ¬env.placeholderParentIsContainer then
    (true, true, true)
  else
    (true, false, nativeStickyThrewOnce)

/-- One call of the native-fallback decision in a run; threads the
`nativeStickyThrewOnce` flag and records whether the warning was emitted. -/
def nativeStickyStep (c : NativeStickyEnv × Props × OverflowScrollType)
    (flag : Bool) : Bool × Bool :=
  let r := shouldUseNativeSticky c.1 c.2.1 c.2.2 flag
  (r.2.1, r.2.2)

/-- The list of per-call warning emissions over a sequence of calls to
`shouldUseNativeSticky` on one instance, starting from flag state `flag`. -/
def nativeStickyWarnings :
    List (NativeStickyEnv × Props × OverflowScrollType) → Bool → List Bool
  | [], _ => []
  | c :: cs, flag =>
    let s := nativeStickyStep c flag
    s.1 :: nativeStickyWarnings cs s.2

/-- Field-wise equality of two position-style values on `position`, `top`
and the acceleration hint fields. -/
def styleFieldwiseEq (a b : PositionStyles) : Prop :=
  a.position = b.position ∧ a.top = b.top ∧
    a.willChange = b.willChange ∧ a.transform = b.transform

/-- C1: the operation `updateStickyOffset(top, height)` sets `offset.height = height`
and `offset.top = min(top, height)`, so `offset.top ≤ offset.height`
always holds after an update; `update(30, 20)` yields `{top: 20, height: 20}`
and `update(5, 20)` yields `{top: 5, height: 20}`. -/
theorem updateStickyOffset_spec :
    (∀ (s : StickyOffset) (top height : ℚ),
        (updateStickyOffset s top height).height = height ∧
        (updateStickyOffset s top height).top = min top height ∧
        (updateStickyOffset s top height).top ≤
          (updateStickyOffset s top height).height) ∧
    updateStickyOffset ⟨0, 0⟩ 30 20 = ⟨20, 20⟩ ∧
    updateStickyOffset ⟨0, 0⟩ 5 20 = ⟨5, 20⟩ := by
  refine ⟨fun s top height => ⟨rfl, rfl, min_le_right top height⟩, ?_, ?_⟩ <;>
    · simp only [updateStickyOffset, StickyOffset.mk.injEq]
      norm_num [min_def]

/-- C2 (counterexample): a container rectangle whose `top` is strictly
greater than `offsetTop` but rounds down to it still makes `isSticky`
true, so the claim as stated fails: with `offsetTop = 0` and
`containerRect.top = 2/5 > 0`, `isSticky` is `true`. -/
theorem isSticky_claim_counterexample :
    (2 : ℚ) / 5 > offsetTop ⟨false, ⟨0, 0⟩, 0, .end_, false, false⟩ ∧
    isSticky ⟨false, ⟨0, 0⟩, 0, .end_, false, false⟩ none
      (some ⟨2 / 5, 100, 100⟩) ⟨50⟩ = true := by
  constructor
  · norm_num [offsetTop]
  · simp [isSticky, optTop, offsetTop]
    norm_num [round_eq]

/-- C2 (amended): for every container rectangle whose ROUNDED top is
strictly greater than `offsetTop`, `isSticky` is false, for every
overflow policy and with or without an explicit container. -/
theorem isSticky_false_of_round_top_gt (p : Props) (rect crect : Option Rect)
    (d : Dimensions) (h : (round (optTop crect) : ℚ) > offsetTop p) :
    isSticky p rect crect d = false := by
  unfold isSticky
  by_cases h1 : p.hasContainer = true
  · rw [if_neg (not_not_intro h1), if_pos h]
  · rw [if_pos h1]
    exact decide_eq_false (not_le.mpr h)

/-- C2 witness: the amended theorem at a concrete input. -/
theorem isSticky_false_of_round_top_gt_witness :
    isSticky ⟨true, ⟨0, 0⟩, 0, .end_, false, false⟩ none
      (some ⟨10, 100, 100⟩) ⟨50⟩ = false :=
  isSticky_false_of_round_top_gt _ _ _ _
    (by norm_num [optTop, offsetTop, round_eq])

/-- C3 (counterexample): with policy `flow`, a sticky height of `10.4`
and viewport height `10`, the element is strictly taller than the
viewport yet `appliedOverflowScroll` is `"end"`, because the code rounds
the height before comparing; so the claim as stated fails. -/
theorem getOverflowScrollType_claim_counterexample :
    (⟨true, ⟨0, 0⟩, 0, .flow, false, false⟩ : Props).overflowScroll = .flow ∧
    (52 : ℚ) / 5 > (10 : ℚ) ∧
    getOverflowScrollType ⟨true, ⟨0, 0⟩, 0, .flow, false, false⟩
      (some ⟨0, 0, 52 / 5⟩) ⟨10⟩ = .end_ := by
  refine ⟨rfl, by norm_num, ?_⟩
  simp [getOverflowScrollType, calcHeightDifference, optHeight]
  norm_num [round_eq]

/-- C3 (amended): the derived `appliedOverflowScroll` is `"flow"` iff the configured
policy is `flow` AND the ROUNDED sticky height is strictly greater than
the viewport height; in every other case it is `"end"`. -/
theorem getOverflowScrollType_flow_iff (p : Props) (r : Option Rect)
    (d : Dimensions) :
    getOverflowScrollType p r d = .flow ↔
      p.overflowScroll = .flow ∧ (round (optHeight r) : ℚ) > d.height := by
  simp only [getOverflowScrollType, calcHeightDifference]
  split_ifs with h
  · obtain ⟨h1, h2⟩ := h
    have h3 : (0 : ℚ) < (round (optHeight r) : ℚ) - d.height :=
      (lt_max_iff.mp h2).resolve_left (lt_irrefl 0)
    exact ⟨fun _ => ⟨h1, sub_pos.mp h3⟩, fun _ => rfl⟩
  · constructor
    · intro hc
      exact absurd hc (by simp)
    · rintro ⟨h1, h2⟩
      exact absurd ⟨h1, lt_max_iff.mpr (Or.inr (sub_pos.mpr h2))⟩ h

/-- C4: the native-fallback decision returns true iff the
`experimentalNative` opt-in is enabled, the platform supports native
`position: sticky`, the applied overflow mode is `"end"`, and the shared
group offset's top is exactly zero — for every state of the one-time
warning flag and of the structural parent-of-placeholder check, which
therefore never affect the returned value. -/
theorem shouldUseNativeSticky_iff (env : NativeStickyEnv) (p : Props)
    (aos : OverflowScrollType) (flag : Bool) :
    (shouldUseNativeSticky env p aos flag).1 = true ↔
      (p.experimentalNative = true ∧ env.supportsPositionSticky = true ∧
        aos = .end_ ∧ p.stickyOffset.top = 0) := by
  unfold shouldUseNativeSticky
  split_ifs with h1 h2 <;> push_neg at h1 <;> simp <;> tauto

/-- C5 (counterexample): the claim fails in two ways.  (a) The
"partial header" condition tests the group offset's top
(`stickyOffset.top`), not the effective `offsetTop =
stickyOffset.top + defaultOffsetTop`: with group offset `{top: 0,
height: 10}` and `defaultOffsetTop = 5`, `0 < offsetTop = 5 < 10` holds,
yet the code returns position `fixed` (top `5`), not `absolute`.
(b) In the `absolute` branch the scroll term is rounded before the
subtraction: with group offset `{top: 2, height: 10}` and
`scroll.yTurn = 3/10`, the code yields top `2` while the claimed formula
yields `23/10`. -/
theorem calcPositionStyles_claim_counterexample :
    (0 < offsetTop ⟨true, ⟨0, 10⟩, 5, .end_, false, false⟩ ∧
      offsetTop ⟨true, ⟨0, 10⟩, 5, .end_, false, false⟩ <
        (⟨true, ⟨0, 10⟩, 5, .end_, false, false⟩ : Props).stickyOffset.height ∧
      isSticky ⟨true, ⟨0, 10⟩, 5, .end_, false, false⟩ (some ⟨0, 50, 10⟩)
        (some ⟨0, 100, 100⟩) ⟨50⟩ = true ∧
      getOverflowScrollType ⟨true, ⟨0, 10⟩, 5, .end_, false, false⟩
        (some ⟨0, 50, 10⟩) ⟨50⟩ = .end_ ∧
      calcPositionStyles ⟨true, ⟨0, 10⟩, 5, .end_, false, false⟩
        (some ⟨0, 50, 10⟩) ⟨0, 100, 100⟩ ⟨0, 0, 0, false, true⟩ ⟨50⟩ =
        { position := .fixed, top := 5 } ∧
      Position.fixed ≠ Position.absolute) ∧
    ((calcPositionStyles ⟨true, ⟨2, 10⟩, 0, .end_, false, false⟩
        (some ⟨0, 50, 10⟩) ⟨0, 100, 100⟩ ⟨0, 3 / 10, 0, false, true⟩ ⟨50⟩).top =
        2 ∧
      ((3 : ℚ) / 10 - 0 + 0) - (round (⟨0, 100, 100⟩ : Rect).top : ℚ) +
        offsetTop ⟨true, ⟨2, 10⟩, 0, .end_, false, false⟩ = 23 / 10 ∧
      (2 : ℚ) ≠ 23 / 10) := by
  constructor
  · refine ⟨?_, ?_, ?_, ?_, ?_, by simp⟩
    · norm_num [offsetTop]
    · norm_num [offsetTop]
    · simp [isSticky, optTop, optBottom, optHeight, offsetTop]
      norm_num [round_eq]
    · simp [getOverflowScrollType, calcHeightDifference, optHeight]
    · simp [calcPositionStyles, isSticky, getOverflowScrollType,
        calcHeightDifference, isDockedToBottom, optTop, optBottom, optHeight,
        offsetTop]
      norm_num [round_eq]
  · refine ⟨?_, ?_, by norm_num⟩
    · simp [calcPositionStyles, isSticky, getOverflowScrollType,
        calcHeightDifference, isDockedToBottom, optTop, optBottom, optHeight,
        offsetTop]
      norm_num [round_eq]
    · norm_num [offsetTop, round_eq]

/-- C5 (amended): when the element is sticky and the applied overflow
mode is not flow, if `0 < stickyOffset.top < stickyOffset.height`
(the GROUP offset top, not the effective `offsetTop`) then the style is
position `absolute` with
`top = round(scroll.yTurn − scroll.y + scroll.yDTurn) −
round(containerRect.top) + offsetTop`; otherwise position `fixed` with
`top = offsetTop`. -/
theorem calcPositionStyles_sticky_not_flow (p : Props) (rs : Option Rect)
    (cr : Rect) (scroll : Scroll) (d : Dimensions)
    (hs : isSticky p rs (some cr) d = true)
    (hf : getOverflowScrollType p rs d ≠ .flow) :
    calcPositionStyles p rs cr scroll d =
      if p.stickyOffset.top > 0 ∧ p.stickyOffset.top < p.stickyOffset.height
      then
        { position := .absolute,
          top := ((round (scroll.yTurn - scroll.y + scroll.yDTurn) : ℚ) -
            (round cr.top : ℚ)) + offsetTop p }
      else
        { position := .fixed, top := offsetTop p } := by
  unfold calcPositionStyles
  rw [if_pos hs, if_neg hf]

/-- C5 witness: the amended theorem at a concrete input (group offset
`{top: 2, height: 10}`, so the flexible-head branch applies). -/
theorem calcPositionStyles_sticky_not_flow_witness :
    calcPositionStyles ⟨true, ⟨2, 10⟩, 0, .end_, false, false⟩
      (some ⟨0, 50, 10⟩) ⟨0, 100, 100⟩ ⟨0, 0, 0, false, true⟩ ⟨50⟩ =
      if (⟨true, ⟨2, 10⟩, 0, .end_, false, false⟩ : Props).stickyOffset.top > 0 ∧
        (⟨true, ⟨2, 10⟩, 0, .end_, false, false⟩ : Props).stickyOffset.top <
          (⟨true, ⟨2, 10⟩, 0, .end_, false, false⟩ : Props).stickyOffset.height
      then
        { position := .absolute,
          top := ((round ((⟨0, 0, 0, false, true⟩ : Scroll).yTurn -
              (⟨0, 0, 0, false, true⟩ : Scroll).y +
              (⟨0, 0, 0, false, true⟩ : Scroll).yDTurn) : ℚ) -
            (round (⟨0, 100, 100⟩ : Rect).top : ℚ)) +
            offsetTop ⟨true, ⟨2, 10⟩, 0, .end_, false, false⟩ }
      else
        { position := .fixed,
          top := offsetTop ⟨true, ⟨2, 10⟩, 0, .end_, false, false⟩ } :=
  calcPositionStyles_sticky_not_flow _ _ _ _ _
    (by simp [isSticky, optTop, optBottom, optHeight, offsetTop]
        norm_num [round_eq])
    (by simp [getOverflowScrollType])

/-- C6: with an absent (unmeasured) sticky or container rectangle the
predicates evaluate (they are total functions) exactly as on the
zero-valued rectangle, and `isDockedToBottom` defaults to `false`
whenever either rectangle is absent. -/
theorem absent_rect_defaults (p : Props) (rect crect : Option Rect)
    (d : Dimensions) :
    isSticky p none crect d = isSticky p (some ⟨0, 0, 0⟩) crect d ∧
    isSticky p rect none d = isSticky p rect (some ⟨0, 0, 0⟩) d ∧
    isNearToViewport none = isNearToViewport (some ⟨0, 0, 0⟩) ∧
    isDockedToBottom p none crect d = false ∧
    isDockedToBottom p rect none d = false := by
  refine ⟨rfl, rfl, rfl, ?_, ?_⟩
  · cases crect <;> rfl
  · cases rect <;> rfl

/-- C7: the position-style derivation is deterministic — two evaluations
of `getStickyStyles` on the identical input tuple agree field-wise on
`position`, `top` and the acceleration hint fields.  (The embedding of
the source is a pure function, so this holds by reflexivity.) -/
theorem getStickyStyles_deterministic (swc : Bool) (p : Props)
    (rect : Option Rect) (cr : Rect) (scroll : Scroll) (d : Dimensions) :
    styleFieldwiseEq (getStickyStyles swc p rect cr scroll d)
      (getStickyStyles swc p rect cr scroll d) :=
  ⟨rfl, rfl, rfl, rfl⟩

/-- C9: the predicates `isSticky` and `isDockedToBottom` are never both true on the same
inputs: docking requires `round(containerRect.bottom) − offsetTop <
effectiveHeight`, which is the negation of the comparison `isSticky`
requires when a container is configured. -/
theorem isSticky_not_isDockedToBottom (p : Props) (rect crect : Option Rect)
    (d : Dimensions) :
    (isSticky p rect crect d && isDockedToBottom p rect crect d) = false := by
  rcases rect with _ | r
  · cases crect <;> simp [isDockedToBottom]
  rcases crect with _ | c
  · simp [isDockedToBottom]
  by_cases hc : p.hasContainer = true
  swap
  · simp [isDockedToBottom, hc]
  by_cases hb : (round c.bottom : ℚ) - offsetTop p <
      (if p.overflowScroll = .flow then min r.height d.height else r.height)
  · have hs : isSticky p (some r) (some c) d = false := by
      simp only [isSticky, optTop, optBottom, optHeight, Option.map_some',
        Option.getD_some]
      rw [if_neg (not_not_intro hc)]
      by_cases ha : (round c.top : ℚ) > offsetTop p
      · rw [if_pos ha]
      · rw [if_neg ha, if_pos hb]
    simp [hs]
  · have hdk : isDockedToBottom p (some r) (some c) d = false := by
      simp only [isDockedToBottom]
      rw [if_neg (not_not_intro hc)]
      by_cases hh : r.height > c.height
      · rw [if_pos hh]
      · rw [if_neg hh,
          if_pos (show (round c.bottom : ℚ) - offsetTop p ≥
            (if p.overflowScroll = .flow then min r.height d.height
             else r.height) from not_lt.mp hb)]
    simp [hdk]

/-- C10: in the scroll-tracking branch of the flow-positioning algorithm
the computed top `|scrollY − stickyTop + (containerTop − scrollY)|`
equals `|containerTop − stickyTop|` for every `scrollY`: the scroll
offset cancels exactly. -/
theorem flowTrackingTop_cancels (scrollY stickyTop containerTop : ℚ) :
    flowTrackingTop scrollY stickyTop containerTop =
      |containerTop - stickyTop| := by
  unfold flowTrackingTop
  rw [show scrollY - stickyTop + (containerTop - scrollY) =
    containerTop - stickyTop from by ring]

/-- Once the warning flag is set, a call never emits the warning again
and leaves the flag set. -/
theorem nativeStickyStep_flagged
    (c : NativeStickyEnv × Props × OverflowScrollType) :
    nativeStickyStep c true = (false, true) := by
  unfold nativeStickyStep shouldUseNativeSticky
  split_ifs with h1 h2
  · rfl
  · exact absurd rfl h2.2.1
  · rfl

/-- From an unset flag, a call sets the flag iff it emits the warning. -/
theorem nativeStickyStep_unflagged
    (c : NativeStickyEnv × Props × OverflowScrollType) :
    (nativeStickyStep c false).2 = (nativeStickyStep c false).1 := by
  unfold nativeStickyStep shouldUseNativeSticky
  split_ifs <;> rfl

/-- With the flag already set, no call in a run ever emits the warning. -/
theorem nativeStickyWarnings_flagged
    (cs : List (NativeStickyEnv × Props × OverflowScrollType)) :
    (nativeStickyWarnings cs true).count true = 0 := by
  induction cs with
  | nil => rfl
  | cons c cs ih =>
    simp only [nativeStickyWarnings, nativeStickyStep_flagged]
    simpa using ih

/-- C8: over every sequence of calls to the native-fallback decision on
one instance (flag initially unset), the structural-precondition warning
is emitted at most once. -/
theorem nativeStickyWarnings_at_most_once
    (calls : List (NativeStickyEnv × Props × OverflowScrollType)) :
    (nativeStickyWarnings calls false).count true ≤ 1 := by
  induction calls with
  | nil => simp [nativeStickyWarnings]
  | cons c cs ih =>
    simp only [nativeStickyWarnings]
    have h2 := nativeStickyStep_unflagged c
    cases h : (nativeStickyStep c false).1
    · rw [h] at h2
      rw [h2]
      simpa using ih
    · rw [h] at h2
      rw [h2]
      simpa using nativeStickyWarnings_flagged cs

end Stickup
